import Mathlib

/-!
Shallow embedding of src/src/prediction/predictor_model.py, the single
source file of the repository (a ResNet18 image-classifier wrapper).

Modelling conventions:
- Python floats carried through compare-and-store code are modelled as
  rationals; tensor mathematics supplied by the framework (forward pass,
  gradient steps, softmax) is abstracted into explicit function
  parameters, since the repository only orchestrates calls into it.
- A model state dict is a value of type Weights; a data loader is a list
  of batches; a batch is a list of (sample, label) pairs.
- Python exceptions become an explicit PyError sum type; fallible
  operations return Except PyError.
- Object identity of torch modules matters for the optimizer binding, so
  each constructed model carries an integer identity drawn from a fresh
  counter that the caller supplies.
-/

set_option autoImplicit false

namespace PredictorModel

/-- A model state dict, abstracted as a flat list of parameter values. -/
abbrev Weights := List ℚ

/-- Keyword-argument dictionary passed to a scheduler constructor. -/
abbrev Kwargs := List (String × ℚ)

/-- A batch yielded by a DataLoader: samples with integer class labels. -/
abbrev Batch (α : Type) := List (α × Nat)

/-- A DataLoader: the finite list of batches it yields, in order. -/
abbrev Loader (α : Type) := List (Batch α)

/-- Python exceptions that the embedded code can raise. -/
inductive PyError where
  | valueError : String → PyError
  | typeError : String → PyError
  | zeroDivisionError : PyError
  | nameError : String → PyError
  | fileNotFoundError : String → PyError
  deriving DecidableEq, Repr

/-- Names accepted by get_optimizer, the keys of supported_optimizers. -/
def supported_optimizers : List String := ["adam", "sgd"]

/-- Names accepted by get_lr_scheduler, the keys of supported_schedulers. -/
def supported_schedulers : List String :=
  ["step", "exponential", "plateau", "cosine_annealing"]

/-- get_optimizer: returns the optimizer class for a supported name and
raises ValueError otherwise. The class itself is framework-owned, so the
embedding returns the validated name as its stand-in. -/
def get_optimizer (optimizer : String) : Except PyError String :=
  if optimizer ∈ supported_optimizers then .ok optimizer
  else .error (.valueError (optimizer ++ " is not a supported optimizer"))

/-- get_lr_scheduler: returns the scheduler class for a supported name and
raises ValueError otherwise. -/
def get_lr_scheduler (scheduler : String) : Except PyError String :=
  if scheduler ∈ supported_schedulers then .ok scheduler
  else .error (.valueError (scheduler ++ " is not a supported scheduler"))

/-- State of an ImageClassifier instance. The torch module self.model is
flattened into its state dict (weights), its training-mode flag and an
object identity; self.optimizer is represented by the identity of the
model whose parameters it holds; self.lr_scheduler by whether one was
constructed. -/
structure ImageClassifier where
  lr : ℚ
  optimizer_str : String
  max_epochs : Nat
  num_classes : Nat
  early_stopping : Bool
  early_stopping_delta : ℚ
  early_stopping_patience : Nat
  lr_scheduler_str : Option String
  lr_scheduler_kwargs : Option Kwargs
  weights : Weights
  trainingMode : Bool
  modelId : Nat
  optBoundId : Nat
  hasScheduler : Bool
  deriving DecidableEq, Repr

/-- ImageClassifier constructor. The fresh resnet18 with its replaced fc
layer is framework-built, so its initial state dict initW is a parameter,
and the new model object receives identity freshId. Exceptions are raised
in source order: get_optimizer raises ValueError for an unsupported
optimizer name; then, when lr_scheduler is not None, get_lr_scheduler
raises ValueError for an unsupported scheduler name; then unpacking
lr_scheduler_kwargs with a double star raises TypeError when it is None.
The optimizer is built from self.model.parameters(), so it is bound to
the model with identity freshId. A freshly constructed torch module is in
training mode. -/
def ImageClassifier.init (initW : Weights) (freshId : Nat) (num_classes : Nat)
    (lr : ℚ) (optimizer : String) (max_epochs : Nat) (early_stopping : Bool)
    (early_stopping_patience : Nat) (early_stopping_delta : ℚ)
    (lr_scheduler : Option String) (lr_scheduler_kwargs : Option Kwargs) :
    Except PyError ImageClassifier :=
  match get_optimizer optimizer with
  | .error e => .error e
  | .ok _ =>
    match lr_scheduler with
    | none =>
        .ok { lr := lr, optimizer_str := optimizer, max_epochs := max_epochs,
              num_classes := num_classes, early_stopping := early_stopping,
              early_stopping_delta := early_stopping_delta,
              early_stopping_patience := early_stopping_patience,
              lr_scheduler_str := none, lr_scheduler_kwargs := lr_scheduler_kwargs,
              weights := initW, trainingMode := true,
              modelId := freshId, optBoundId := freshId, hasScheduler := false }
    | some s =>
      match get_lr_scheduler s with
      | .error e => .error e
      | .ok _ =>
        match lr_scheduler_kwargs with
        | none => .error (.typeError "argument after ** must be a mapping, not NoneType")
        | some _ =>
            .ok { lr := lr, optimizer_str := optimizer, max_epochs := max_epochs,
                  num_classes := num_classes, early_stopping := early_stopping,
                  early_stopping_delta := early_stopping_delta,
                  early_stopping_patience := early_stopping_patience,
                  lr_scheduler_str := some s, lr_scheduler_kwargs := lr_scheduler_kwargs,
                  weights := initW, trainingMode := true,
                  modelId := freshId, optBoundId := freshId, hasScheduler := true }

/-- The model_params dictionary assembled by ImageClassifier.save. -/
structure ModelParams where
  lr : ℚ
  optimizer : String
  lr_scheduler : Option String
  lr_scheduler_kwargs : Option Kwargs
  max_epochs : Nat
  early_stopping : Bool
  early_stopping_patience : Nat
  early_stopping_delta : ℚ
  num_classes : Nat
  deriving DecidableEq, Repr

/-- A value stored in the model_params dictionary. -/
inductive PVal where
  | ratV : ℚ → PVal
  | strV : String → PVal
  | optStrV : Option String → PVal
  | natV : Nat → PVal
  | boolV : Bool → PVal
  | kwargsV : Option Kwargs → PVal
  deriving DecidableEq, Repr

/-- The model_params dictionary rendered as an ordered key-value list, in
the key order of the source literal at lines 239 to 249. -/
def ModelParams.toDict (p : ModelParams) : List (String × PVal) :=
  [("lr", .ratV p.lr),
   ("optimizer", .strV p.optimizer),
   ("lr_scheduler", .optStrV p.lr_scheduler),
   ("lr_scheduler_kwargs", .kwargsV p.lr_scheduler_kwargs),
   ("max_epochs", .natV p.max_epochs),
   ("early_stopping", .boolV p.early_stopping),
   ("early_stopping_patience", .natV p.early_stopping_patience),
   ("early_stopping_delta", .ratV p.early_stopping_delta),
   ("num_classes", .natV p.num_classes)]

/-- The hyperparameter dictionary that save assembles from self. -/
def ImageClassifier.model_params (c : ImageClassifier) : ModelParams :=
  { lr := c.lr, optimizer := c.optimizer_str,
    lr_scheduler := c.lr_scheduler_str,
    lr_scheduler_kwargs := c.lr_scheduler_kwargs,
    max_epochs := c.max_epochs, early_stopping := c.early_stopping,
    early_stopping_patience := c.early_stopping_patience,
    early_stopping_delta := c.early_stopping_delta,
    num_classes := c.num_classes }

/-- Content of a file written into the predictor directory. -/
inductive FileContent where
  | paramsFile : ModelParams → FileContent
  | stateFile : Weights → FileContent
  deriving DecidableEq, Repr

/-- A predictor directory: file names mapped to contents. -/
abbrev Dir := List (String × FileContent)

/-- Lookup of a file by name in a directory. -/
def Dir.read (d : Dir) (name : String) : Option FileContent :=
  (d.find? (fun p => p.1 == name)).map Prod.snd

/-- ImageClassifier.save: the list of file writes it performs into the
directory, in source order: joblib.dump of the model_params dictionary to
model_params.joblib, then torch.save of the state dict to model_state.pth.
It mutates no classifier state. -/
def ImageClassifier.save (c : ImageClassifier) : Dir :=
  [("model_params.joblib", .paramsFile c.model_params),
   ("model_state.pth", .stateFile c.weights)]

/-- ImageClassifier.load: reads the params and state files, builds a fresh
resnet18 (identity freshId) and loads the saved state dict into it, then
constructs a trainer through the constructor (whose own model receives
identity freshId + 1, and whose optimizer is bound to that model) and
finally overwrites trainer.model with the separately built model. ctorW
is the framework-supplied state dict of the model the constructor builds
and then discards. -/
def ImageClassifier.load (ctorW : Weights) (freshId : Nat) (d : Dir) :
    Except PyError ImageClassifier :=
  match d.read "model_params.joblib" with
  | some (.paramsFile p) =>
    match d.read "model_state.pth" with
    | some (.stateFile st) =>
      match ImageClassifier.init ctorW (freshId + 1) p.num_classes p.lr
          p.optimizer p.max_epochs p.early_stopping p.early_stopping_patience
          p.early_stopping_delta p.lr_scheduler p.lr_scheduler_kwargs with
      | .error e => .error e
      | .ok trainer =>
          .ok { trainer with
                weights := st, trainingMode := true, modelId := freshId }
    | _ => .error (.fileNotFoundError "model_state.pth")
  | _ => .error (.fileNotFoundError "model_params.joblib")

/-- Well-formedness of a classifier state as produced by the constructor:
the stored optimizer name is supported, and when a scheduler name is
stored it is supported and the stored kwargs are a dictionary. -/
def ImageClassifier.WellFormed (c : ImageClassifier) : Prop :=
  c.optimizer_str ∈ supported_optimizers ∧
  (match c.lr_scheduler_str, c.lr_scheduler_kwargs with
   | none, _ => True
   | some s, some _ => s ∈ supported_schedulers
   | some _, none => False)

section Ops

variable {α : Type} {σ : Type}

/-- get_loss: puts the model in eval mode, sums the per-batch loss values
under no_grad and divides by the number of batches. The per-batch loss
value produced by the framework is abstracted as lossOf. The division is
unguarded in the source, so a loader with zero batches raises
ZeroDivisionError. The model.eval call mutates only the training flag of
the model passed in; callers of this embedding apply that flag change to
their classifier. -/
def get_loss (lossOf : Weights → Batch α → ℚ) (w : Weights) (data : Loader α) :
    Except PyError ℚ :=
  let loss_total := data.foldl (fun acc b => acc + lossOf w b) 0
  if data.length = 0 then .error .zeroDivisionError
  else .ok (loss_total / (data.length : ℚ))

/-- One operation performed by the training loop, recorded in order. -/
inductive TrainEvent (α : Type) where
  | zeroGrad : TrainEvent α
  | forwardPass : Batch α → TrainEvent α
  | backward : TrainEvent α
  | optStep : TrainEvent α
  | schedStep : TrainEvent α
  deriving DecidableEq

/-- Discriminator for scheduler-step events. -/
def TrainEvent.isSchedStep : TrainEvent α → Bool
  | .schedStep => true
  | _ => false

/-- Per-batch body of forward_backward: optimizer.zero_grad, the forward
pass, loss.backward, optimizer.step, in source order. The net effect of
one such step on the parameters the optimizer is bound to is abstracted
as trainStep. When the optimizer is bound to the very model being run
(the invariant established by the constructor), the weights of self.model
advance by trainStep; when it is bound to a different, discarded model,
optimizer.step touches only that other object and self.model keeps its
weights. -/
def fbBatches (trainStep : Weights → Batch α → Weights) (bound : Bool) :
    Loader α → Weights → Weights × List (TrainEvent α)
  | [], w => (w, [])
  | b :: rest, w =>
    let w2 := if bound then trainStep w b else w
    let r := fbBatches trainStep bound rest w2
    (r.1, [.zeroGrad, .forwardPass b, .backward, .optStep] ++ r.2)

/-- ImageClassifier.forward_backward: iterates the per-batch body over the
loader, then steps the scheduler once if one is configured. Returns the
updated classifier and the ordered list of operations performed. -/
def ImageClassifier.forward_backward (trainStep : Weights → Batch α → Weights)
    (c : ImageClassifier) (data : Loader α) :
    ImageClassifier × List (TrainEvent α) :=
  let r := fbBatches trainStep (c.optBoundId == c.modelId) data c.weights
  ({ c with weights := r.1 },
   r.2 ++ (if c.hasScheduler then [.schedStep] else []))

/-- Record of one completed epoch of fit: the train loss logged, the
validation loss when valid_data was given, and the early-stopping verdict
(some b when the stopper was consulted and answered b, none when
early_stopping is off and the stopper was never called). -/
structure EpochRec where
  train_loss : ℚ
  val_loss : Option ℚ
  stopFired : Option Bool
  deriving DecidableEq, Repr

/-- One iteration of the epoch loop of fit before the early-stopping
check: forward_backward over the training data, then the train loss, then
the validation loss when valid_data is given. Each get_loss call puts the
model in eval mode. Returns the losses and the updated classifier. -/
def epochBody (trainStep : Weights → Batch α → Weights)
    (lossOf : Weights → Batch α → ℚ) (train : Loader α)
    (valid : Option (Loader α)) (c : ImageClassifier) :
    Except PyError ((ℚ × Option ℚ) × ImageClassifier) :=
  match get_loss lossOf
      ((ImageClassifier.forward_backward trainStep c train).1).weights train with
  | .error e => .error e
  | .ok tl =>
    match valid with
    | none =>
        .ok ((tl, none),
          { (ImageClassifier.forward_backward trainStep c train).1 with
              trainingMode := false })
    | some v =>
      match get_loss lossOf
          ((ImageClassifier.forward_backward trainStep c train).1).weights v with
      | .error e => .error e
      | .ok vl =>
          .ok ((tl, some vl),
            { (ImageClassifier.forward_backward trainStep c train).1 with
                trainingMode := false })

/-- The epoch loop of fit, running for at most the given number of
remaining epochs. The early stopper from torch_utils is not part of the
source tree; modelled from the spec: train until patience exhausted or
max epochs reached, so the stopper is an abstract step function es on a
stopper state, consulted once per epoch with the monitored loss
(validation loss when valid_data is given, else train loss) exactly when
self.early_stopping holds, and training breaks as soon as it answers
true. Returns the per-epoch records in order together with the final
classifier, or the exception that aborted the loop. -/
def fitLoop (es : σ → ℚ → Bool × σ) (trainStep : Weights → Batch α → Weights)
    (lossOf : Weights → Batch α → ℚ) (train : Loader α)
    (valid : Option (Loader α)) :
    Nat → ImageClassifier → σ → List EpochRec × Except PyError ImageClassifier
  | 0, c, _ => ([], .ok c)
  | Nat.succ k, c, s =>
    match epochBody trainStep lossOf train valid c with
    | .error e => ([], .error e)
    | .ok ((tl, vl), c2) =>
      if c.early_stopping then
        if (es s (vl.getD tl)).1 then ([⟨tl, vl, some true⟩], .ok c2)
        else
          (⟨tl, vl, some false⟩ ::
              (fitLoop es trainStep lossOf train valid k c2
                (es s (vl.getD tl)).2).1,
            (fitLoop es trainStep lossOf train valid k c2
              (es s (vl.getD tl)).2).2)
      else
        (⟨tl, vl, none⟩ ::
            (fitLoop es trainStep lossOf train valid k c2 s).1,
          (fitLoop es trainStep lossOf train valid k c2 s).2)

/-- ImageClassifier.fit: model.train() at entry, then the epoch loop for
range(max_epochs) with early stopper state es0. When max_epochs is zero
the loop body never runs and the closing line raises NameError, because
train_progress_bar was never assigned. -/
def ImageClassifier.fit (es : σ → ℚ → Bool × σ) (es0 : σ)
    (trainStep : Weights → Batch α → Weights)
    (lossOf : Weights → Batch α → ℚ) (c : ImageClassifier) (train : Loader α)
    (valid : Option (Loader α)) :
    List EpochRec × Except PyError ImageClassifier :=
  if c.max_epochs = 0 then
    ([], .error (.nameError "train_progress_bar"))
  else
    fitLoop es trainStep lossOf train valid c.max_epochs
      { c with trainingMode := true } es0

/-- Maximum of a list of rationals, used to embed torch.max. -/
def listMax : List ℚ → ℚ
  | [] => 0
  | [x] => x
  | x :: y :: rest => max x (listMax (y :: rest))

/-- Index of the first maximal element, the embedding of the index result
of torch.max over the class dimension. -/
def argmaxIdx : List ℚ → Nat
  | [] => 0
  | x :: xs => if xs = [] then 0 else if listMax xs > x then 1 + argmaxIdx xs else 0

/-- The batch loop of predict, carrying the accumulators all_predicted
and all_probs. Each iteration appends the argmax indices and the softmax
rows of the current batch outputs; the size guard of the source on
all_probs only works around numpy shape rules and is concatenation here.
The framework forward pass is abstracted as modelOut, row softmax as
softmaxFn. The accumulated true labels are not returned by the source. -/
def predictLoop (modelOut : Weights → α → List ℚ)
    (softmaxFn : List ℚ → List ℚ) (w : Weights) :
    Loader α → List Nat × List (List ℚ) → List Nat × List (List ℚ)
  | [], acc => acc
  | b :: rest, acc =>
    let outs := b.map (fun sl => modelOut w sl.1)
    predictLoop modelOut softmaxFn w rest
      (acc.1 ++ outs.map argmaxIdx, acc.2 ++ outs.map softmaxFn)

/-- ImageClassifier.predict: model.eval(), then under no_grad the batch
loop over the loader; returns (predicted labels, probabilities) and the
classifier as left behind (only the training flag was touched). -/
def ImageClassifier.predict (modelOut : Weights → α → List ℚ)
    (softmaxFn : List ℚ → List ℚ) (c : ImageClassifier) (data : Loader α) :
    (List Nat × List (List ℚ)) × ImageClassifier :=
  (predictLoop modelOut softmaxFn c.weights data ([], []),
   { c with trainingMode := false })

/-- ImageClassifier.evaluate: get_loss of self.model on the test data
with self.loss_function; model.eval() inside get_loss touches only the
training flag. -/
def ImageClassifier.evaluate (lossOf : Weights → Batch α → ℚ)
    (c : ImageClassifier) (test_data : Loader α) :
    Except PyError ℚ × ImageClassifier :=
  (get_loss lossOf c.weights test_data, { c with trainingMode := false })

end Ops

/-- Concrete classifier state used by the witnesses below. -/
def demoClassifier : ImageClassifier :=
  { lr := 1, optimizer_str := "adam", max_epochs := 1, num_classes := 2,
    early_stopping := false, early_stopping_delta := 1,
    early_stopping_patience := 1, lr_scheduler_str := none,
    lr_scheduler_kwargs := none, weights := [0], trainingMode := true,
    modelId := 0, optBoundId := 0, hasScheduler := false }

/-- Concrete constructor result used by the witnesses below. -/
def demoInit : ImageClassifier :=
  (ImageClassifier.init [1] 0 2 1 "adam" 1 false 1 1 none none).toOption.getD
    demoClassifier

/-- Concrete load result used by the witnesses below. -/
def demoLoaded : ImageClassifier :=
  (ImageClassifier.load [0] 5 demoClassifier.save).toOption.getD demoClassifier

/-- Concrete fit run without early stopping used by the witnesses below. -/
def demoFitRes : List EpochRec × Except PyError ImageClassifier :=
  ImageClassifier.fit (fun (s : Unit) _ => (false, s)) () (fun w _ => w)
    (fun w _ => w.headD 0) demoClassifier ([[(1, 0)]] : Loader Nat) none

/-- Final classifier of the concrete fit run. -/
def demoFitClassifier : ImageClassifier :=
  demoFitRes.2.toOption.getD demoClassifier

/-- Concrete classifier with early stopping enabled. -/
def demoClassifierES : ImageClassifier :=
  { demoClassifier with early_stopping := true, max_epochs := 5 }

/-- Trace of a concrete fit run whose stopper fires at its second call. -/
def demoTrace : List EpochRec :=
  (ImageClassifier.fit (fun (s : Nat) _ => (Nat.ble 1 s, s + 1)) 0
    (fun w _ => w) (fun w _ => w.headD 0) demoClassifierES
    ([[(1, 0)]] : Loader Nat) none).1

/-- Discriminator for a raised ValueError. -/
def raisesValueError : Except PyError ImageClassifier → Bool
  | .error (.valueError _) => true
  | _ => false

/-- Discriminator for a raised TypeError. -/
def raisesTypeError : Except PyError ImageClassifier → Bool
  | .error (.typeError _) => true
  | _ => false

/-- Observation of self.lr_scheduler of a successfully constructed
classifier: some (whether a scheduler object was built), none when the
constructor raised. -/
def hasSchedulerOf : Except PyError ImageClassifier → Option Bool
  | .ok c => some c.hasScheduler
  | .error _ => none

section Theorems

variable {α : Type} {σ : Type}

/-- Folding addition of per-batch losses equals the sum of the mapped
losses, the content of the accumulation loop of get_loss. -/
theorem foldl_add_map_sum {β : Type} (f : β → ℚ) (l : List β) (a : ℚ) :
    l.foldl (fun acc b => acc + f b) a = a + (l.map f).sum := by
  induction l generalizing a with
  | nil => simp
  | cons x xs ih => simp [ih, add_assoc]

/-- C8: get_loss returns the sum of per-batch loss values divided by the
number of batches, and on a loader with zero batches the unguarded
division raises ZeroDivisionError; evaluate inherits the empty-loader
error since it is get_loss on the test data. -/
theorem get_loss_mean_and_empty (lossOf : Weights → Batch α → ℚ) (w : Weights) :
    get_loss lossOf w ([] : Loader α) = .error .zeroDivisionError ∧
    (∀ data : Loader α, data ≠ [] →
      get_loss lossOf w data = .ok ((data.map (lossOf w)).sum / (data.length : ℚ))) ∧
    (∀ c : ImageClassifier,
      (ImageClassifier.evaluate lossOf c ([] : Loader α)).1 = .error .zeroDivisionError) := by
  refine ⟨rfl, ?_, fun c => rfl⟩
  intro data hne
  have hlen : data.length ≠ 0 := fun h => hne (List.length_eq_zero.mp h)
  simp [get_loss, hlen, foldl_add_map_sum]

/-- Witness for C8 on a concrete one-batch loader. -/
theorem get_loss_mean_and_empty_witness :
    ([[((0 : Nat), 0)]] : Loader Nat) ≠ [] ∧
    get_loss (fun _ b => (b.length : ℚ)) [] ([[((0 : Nat), 0)]] : Loader Nat) =
      .ok ((([[((0 : Nat), 0)]] : Loader Nat).map
        ((fun (_ : Weights) (b : Batch Nat) => (b.length : ℚ)) [])).sum /
          ((([[((0 : Nat), 0)]] : Loader Nat).length : Nat) : ℚ)) :=
  ⟨by decide,
   (get_loss_mean_and_empty (fun _ b => (b.length : ℚ)) []).2.1
     ([[((0 : Nat), 0)]] : Loader Nat) (by decide)⟩

/-- C7: save writes exactly two files, the model_params dictionary at
model_params.joblib and the state dict at model_state.pth, and the
dictionary holds exactly the nine hyperparameter keys in source order. -/
theorem save_writes_exactly (c : ImageClassifier) :
    c.save = [("model_params.joblib", .paramsFile c.model_params),
              ("model_state.pth", .stateFile c.weights)] ∧
    c.model_params.toDict.map Prod.fst =
      ["lr", "optimizer", "lr_scheduler", "lr_scheduler_kwargs", "max_epochs",
       "early_stopping", "early_stopping_patience", "early_stopping_delta",
       "num_classes"] :=
  ⟨rfl, rfl⟩

/-- C3: the constructor raises ValueError exactly when the optimizer name
is unsupported or a scheduler name is given and unsupported; and a
successfully constructed classifier with lr_scheduler None carries no
scheduler object. -/
theorem init_valueError_iff (initW : Weights) (freshId num_classes : Nat)
    (lr : ℚ) (optimizer : String) (max_epochs : Nat) (early_stopping : Bool)
    (patience : Nat) (delta : ℚ) (sch : Option String) (kw : Option Kwargs) :
    (raisesValueError (ImageClassifier.init initW freshId num_classes lr optimizer
        max_epochs early_stopping patience delta sch kw) = true ↔
      optimizer ∉ supported_optimizers ∨
      (∃ s, sch = some s ∧ s ∉ supported_schedulers)) ∧
    (sch = none → optimizer ∈ supported_optimizers →
      hasSchedulerOf (ImageClassifier.init initW freshId num_classes lr optimizer
        max_epochs early_stopping patience delta sch kw) = some false) := by
  constructor
  · by_cases hopt : optimizer ∈ supported_optimizers
    · cases sch with
      | none =>
          simp [ImageClassifier.init, get_optimizer, hopt, raisesValueError]
      | some s =>
          by_cases hs : s ∈ supported_schedulers
          · cases kw with
            | none =>
                simp [ImageClassifier.init, get_optimizer, get_lr_scheduler,
                  hopt, hs, raisesValueError]
            | some k =>
                simp [ImageClassifier.init, get_optimizer, get_lr_scheduler,
                  hopt, hs, raisesValueError]
          · simp [ImageClassifier.init, get_optimizer, get_lr_scheduler,
              hopt, hs, raisesValueError]
    · simp [ImageClassifier.init, get_optimizer, hopt, raisesValueError]
  · intro hnone hopt
    subst hnone
    simp [ImageClassifier.init, get_optimizer, hopt, hasSchedulerOf]

/-- Witness for C3: a concrete constructor call with lr_scheduler None
yields a classifier without a scheduler. -/
theorem init_valueError_iff_witness :
    hasSchedulerOf (ImageClassifier.init [1] 0 2 1 "adam" 3 false 2 1 none none) =
      some false :=
  (init_valueError_iff [1] 0 2 1 "adam" 3 false 2 1 none none).2 rfl (by decide)

/-- Counterexample to C9 as stated: with an unsupported scheduler name
and kwargs None, construction raises ValueError, not TypeError, because
get_lr_scheduler is evaluated before the kwargs are unpacked. -/
theorem ctor_none_kwargs_counterexample :
    raisesTypeError (ImageClassifier.init [1] 0 2 1 "adam" 3 false 2 1
      (some "bogus") none) = false ∧
    ImageClassifier.init [1] 0 2 1 "adam" 3 false 2 1 (some "bogus") none =
      .error (.valueError "bogus is not a supported scheduler") :=
  ⟨rfl, rfl⟩

/-- C9 amended: with a supported optimizer name and a supported scheduler
name, construction with lr_scheduler_kwargs None raises TypeError from
unpacking None with a double star. -/
theorem ctor_supported_sched_none_kwargs_typeError (initW : Weights)
    (freshId num_classes : Nat) (lr : ℚ) (optimizer : String) (max_epochs : Nat)
    (early_stopping : Bool) (patience : Nat) (delta : ℚ) (s : String)
    (hopt : optimizer ∈ supported_optimizers)
    (hs : s ∈ supported_schedulers) :
    ImageClassifier.init initW freshId num_classes lr optimizer max_epochs
        early_stopping patience delta (some s) none =
      .error (.typeError "argument after ** must be a mapping, not NoneType") := by
  simp [ImageClassifier.init, get_optimizer, get_lr_scheduler, hopt, hs]

/-- Witness for the amended C9 at adam with a step scheduler. -/
theorem ctor_supported_sched_none_kwargs_typeError_witness :
    ImageClassifier.init [1] 0 2 1 "adam" 3 false 2 1 (some "step") none =
      .error (.typeError "argument after ** must be a mapping, not NoneType") :=
  ctor_supported_sched_none_kwargs_typeError [1] 0 2 1 "adam" 3 false 2 1 "step"
    (by decide) (by decide)

/-- C1: after save, load on the resulting directory returns a classifier
whose nine hyperparameters and whose model weights equal those of the
saved classifier, for any well-formed classifier (one whose stored names
pass the constructor checks, as all constructor-built classifiers do),
any constructor-model state dict and any fresh identity. -/
theorem save_load_roundtrip (c : ImageClassifier) (ctorW : Weights) (fid : Nat)
    (h : c.WellFormed) :
    ∃ c2, ImageClassifier.load ctorW fid c.save = .ok c2 ∧
      c2.lr = c.lr ∧ c2.optimizer_str = c.optimizer_str ∧
      c2.lr_scheduler_str = c.lr_scheduler_str ∧
      c2.lr_scheduler_kwargs = c.lr_scheduler_kwargs ∧
      c2.max_epochs = c.max_epochs ∧ c2.early_stopping = c.early_stopping ∧
      c2.early_stopping_patience = c.early_stopping_patience ∧
      c2.early_stopping_delta = c.early_stopping_delta ∧
      c2.num_classes = c.num_classes ∧ c2.weights = c.weights := by
  obtain ⟨h1, h2⟩ := h
  have hr1 : Dir.read c.save "model_params.joblib" =
      some (.paramsFile c.model_params) := rfl
  have hr2 : Dir.read c.save "model_state.pth" =
      some (.stateFile c.weights) := rfl
  unfold ImageClassifier.load
  rw [hr1, hr2]
  cases hsch : c.lr_scheduler_str with
  | none =>
      simp [ImageClassifier.init, get_optimizer, ImageClassifier.model_params,
        h1, hsch]
  | some s =>
      cases hkw : c.lr_scheduler_kwargs with
      | none =>
          rw [hsch, hkw] at h2
          simp at h2
      | some k =>
          rw [hsch, hkw] at h2
          simp at h2
          simp [ImageClassifier.init, get_optimizer, get_lr_scheduler,
            ImageClassifier.model_params, h1, h2, hsch, hkw]

/-- Witness for C1 on a concrete well-formed classifier with a step
scheduler. -/
theorem save_load_roundtrip_witness :
    (ImageClassifier.WellFormed
      { lr := 1/2, optimizer_str := "sgd", max_epochs := 4, num_classes := 3,
        early_stopping := true, early_stopping_delta := 1/20,
        early_stopping_patience := 2, lr_scheduler_str := some "step",
        lr_scheduler_kwargs := some [("step_size", 2)], weights := [5, 7],
        trainingMode := false, modelId := 3, optBoundId := 3,
        hasScheduler := true }) ∧
    (∃ c2, ImageClassifier.load [9] 11
        (ImageClassifier.save
          { lr := 1/2, optimizer_str := "sgd", max_epochs := 4, num_classes := 3,
            early_stopping := true, early_stopping_delta := 1/20,
            early_stopping_patience := 2, lr_scheduler_str := some "step",
            lr_scheduler_kwargs := some [("step_size", 2)], weights := [5, 7],
            trainingMode := false, modelId := 3, optBoundId := 3,
            hasScheduler := true }) = .ok c2 ∧
      c2.lr = (1/2 : ℚ) ∧ c2.optimizer_str = "sgd" ∧
      c2.lr_scheduler_str = some "step" ∧
      c2.lr_scheduler_kwargs = some [("step_size", 2)] ∧
      c2.max_epochs = 4 ∧ c2.early_stopping = true ∧
      c2.early_stopping_patience = 2 ∧
      c2.early_stopping_delta = (1/20 : ℚ) ∧
      c2.num_classes = 3 ∧ c2.weights = [5, 7]) := by
  constructor
  · exact ⟨by decide, by decide⟩
  · have hwf : ImageClassifier.WellFormed
        { lr := 1/2, optimizer_str := "sgd", max_epochs := 4, num_classes := 3,
          early_stopping := true, early_stopping_delta := 1/20,
          early_stopping_patience := 2, lr_scheduler_str := some "step",
          lr_scheduler_kwargs := some [("step_size", 2)], weights := [5, 7],
          trainingMode := false, modelId := 3, optBoundId := 3,
          hasScheduler := true } := ⟨by decide, by decide⟩
    simpa using save_load_roundtrip _ [9] 11 hwf

/-- The events of the batch loop of forward_backward are exactly the four
operations per batch, in loader order. -/
theorem fbBatches_events (trainStep : Weights → Batch α → Weights)
    (bound : Bool) (data : Loader α) :
    ∀ w : Weights, (fbBatches trainStep bound data w).2 =
      data.flatMap (fun b => [TrainEvent.zeroGrad, TrainEvent.forwardPass b,
        TrainEvent.backward, TrainEvent.optStep]) := by
  induction data with
  | nil => intro w; rfl
  | cons b rest ih => intro w; simp [fbBatches, ih]

/-- The batch events of forward_backward contain no scheduler step. -/
theorem fbBatches_no_schedStep (data : Loader α) :
    (data.flatMap (fun b => [TrainEvent.zeroGrad, TrainEvent.forwardPass b,
      TrainEvent.backward, TrainEvent.optStep])).countP
        (fun e => TrainEvent.isSchedStep e) = 0 := by
  induction data with
  | nil => rfl
  | cons b rest ih =>
      rw [List.flatMap_cons, List.countP_append, ih]
      rfl

/-- C4: forward_backward performs, for every batch of the training data
in loader order, zero_grad, the forward pass, backward, optimizer step,
in exactly that order, and steps the scheduler exactly once per call
(hence once per epoch of fit, which calls it once per epoch), after all
batch operations, exactly when a scheduler is configured. -/
theorem forward_backward_event_order (trainStep : Weights → Batch α → Weights)
    (c : ImageClassifier) (data : Loader α) :
    (ImageClassifier.forward_backward trainStep c data).2 =
      data.flatMap (fun b => [TrainEvent.zeroGrad, TrainEvent.forwardPass b,
        TrainEvent.backward, TrainEvent.optStep]) ++
      (if c.hasScheduler then [TrainEvent.schedStep] else []) ∧
    (ImageClassifier.forward_backward trainStep c data).2.countP
        (fun e => TrainEvent.isSchedStep e) =
      (if c.hasScheduler then 1 else 0) := by
  have h := fbBatches_events trainStep (c.optBoundId == c.modelId) data c.weights
  refine ⟨by simp [ImageClassifier.forward_backward, h], ?_⟩
  simp only [ImageClassifier.forward_backward, h, List.countP_append]
  rw [fbBatches_no_schedStep]
  cases c.hasScheduler <;> simp [TrainEvent.isSchedStep]

/-- The batch loop of predict appends, batch by batch, the argmax index
and the softmax row of each sample output to the accumulators. -/
theorem predictLoop_spec (modelOut : Weights → α → List ℚ)
    (softmaxFn : List ℚ → List ℚ) (w : Weights) (data : Loader α) :
    ∀ acc : List Nat × List (List ℚ),
      predictLoop modelOut softmaxFn w data acc =
        (acc.1 ++ data.flatten.map (fun sl => argmaxIdx (modelOut w sl.1)),
         acc.2 ++ data.flatten.map (fun sl => softmaxFn (modelOut w sl.1))) := by
  induction data with
  | nil => intro acc; simp [predictLoop]
  | cons b rest ih =>
      intro acc
      simp [predictLoop, ih, List.map_map, Function.comp]

/-- C5: predict returns the predicted labels and probability rows of the
samples of the loader, flattened in loader order: per sample, the argmax
index of the model output and the softmax of the model output, one entry
and one row per input sample. -/
theorem predict_argmax_softmax (modelOut : Weights → α → List ℚ)
    (softmaxFn : List ℚ → List ℚ) (c : ImageClassifier) (data : Loader α) :
    (ImageClassifier.predict modelOut softmaxFn c data).1 =
      (data.flatten.map (fun sl => argmaxIdx (modelOut c.weights sl.1)),
       data.flatten.map (fun sl => softmaxFn (modelOut c.weights sl.1))) ∧
    (ImageClassifier.predict modelOut softmaxFn c data).1.1.length =
      data.flatten.length ∧
    (ImageClassifier.predict modelOut softmaxFn c data).1.2.length =
      data.flatten.length := by
  have h := predictLoop_spec modelOut softmaxFn c.weights data ([], [])
  simp only [List.nil_append] at h
  refine ⟨by simpa [ImageClassifier.predict] using h, ?_, ?_⟩ <;>
    simp only [ImageClassifier.predict, h, List.length_map]

/-- C6: predict and evaluate leave every stored classifier field, in
particular the model weights and all nine hyperparameters, unchanged;
their only state effect is model.eval, which clears the training flag. -/
theorem inference_preserves_state (modelOut : Weights → α → List ℚ)
    (softmaxFn : List ℚ → List ℚ) (lossOf : Weights → Batch α → ℚ)
    (c : ImageClassifier) (data : Loader α) (test_data : Loader α) :
    (ImageClassifier.predict modelOut softmaxFn c data).2 =
      { c with trainingMode := false } ∧
    (ImageClassifier.evaluate lossOf c test_data).2 =
      { c with trainingMode := false } ∧
    (ImageClassifier.predict modelOut softmaxFn c data).2.weights = c.weights ∧
    (ImageClassifier.predict modelOut softmaxFn c data).2.lr = c.lr ∧
    (ImageClassifier.predict modelOut softmaxFn c data).2.optimizer_str =
      c.optimizer_str ∧
    (ImageClassifier.predict modelOut softmaxFn c data).2.max_epochs =
      c.max_epochs ∧
    (ImageClassifier.predict modelOut softmaxFn c data).2.num_classes =
      c.num_classes ∧
    (ImageClassifier.predict modelOut softmaxFn c data).2.early_stopping =
      c.early_stopping ∧
    (ImageClassifier.predict modelOut softmaxFn c data).2.early_stopping_delta =
      c.early_stopping_delta ∧
    (ImageClassifier.predict modelOut softmaxFn c data).2.early_stopping_patience =
      c.early_stopping_patience ∧
    (ImageClassifier.predict modelOut softmaxFn c data).2.lr_scheduler_str =
      c.lr_scheduler_str ∧
    (ImageClassifier.predict modelOut softmaxFn c data).2.lr_scheduler_kwargs =
      c.lr_scheduler_kwargs ∧
    (ImageClassifier.predict modelOut softmaxFn c data).2.trainingMode = false ∧
    (ImageClassifier.evaluate lossOf c test_data).2.weights = c.weights ∧
    (ImageClassifier.evaluate lossOf c test_data).2.trainingMode = false :=
  ⟨rfl, rfl, rfl, rfl, rfl, rfl, rfl, rfl, rfl, rfl, rfl, rfl, rfl, rfl, rfl⟩

/-- get_loss succeeds on every loader with at least one batch. -/
theorem get_loss_isOk (lossOf : Weights → Batch α → ℚ) (w : Weights)
    (data : Loader α) (h : data ≠ []) :
    ∃ q, get_loss lossOf w data = .ok q := by
  have hlen : data.length ≠ 0 := fun h0 => h (List.length_eq_zero.mp h0)
  simp [get_loss, hlen]

/-- An epoch body run to completion changes neither the control
hyperparameters nor the object identities, and records a validation loss
exactly when valid_data was given. -/
theorem epochBody_fields (trainStep : Weights → Batch α → Weights)
    (lossOf : Weights → Batch α → ℚ) (train : Loader α)
    (valid : Option (Loader α)) (c : ImageClassifier) (tl : ℚ) (vl : Option ℚ)
    (c2 : ImageClassifier)
    (h : epochBody trainStep lossOf train valid c = .ok ((tl, vl), c2)) :
    c2.early_stopping = c.early_stopping ∧ c2.max_epochs = c.max_epochs ∧
    c2.modelId = c.modelId ∧ c2.optBoundId = c.optBoundId ∧
    (valid = none → vl = none) := by
  unfold epochBody at h
  cases hg : get_loss lossOf
      ((ImageClassifier.forward_backward trainStep c train).1).weights train with
  | error e => simp only [hg] at h; exact Except.noConfusion h
  | ok q =>
      simp only [hg] at h
      cases valid with
      | none =>
          simp only [Except.ok.injEq, Prod.mk.injEq] at h
          obtain ⟨⟨-, hvl⟩, hc⟩ := h
          subst hc
          exact ⟨rfl, rfl, rfl, rfl, fun _ => hvl.symm⟩
      | some v =>
          cases hg2 : get_loss lossOf
              ((ImageClassifier.forward_backward trainStep c train).1).weights v with
          | error e => simp only [hg2] at h; exact Except.noConfusion h
          | ok q2 =>
              simp only [hg2, Except.ok.injEq, Prod.mk.injEq] at h
              obtain ⟨⟨-, hvl⟩, hc⟩ := h
              subst hc
              exact ⟨rfl, rfl, rfl, rfl, fun hn => nomatch hn⟩

/-- An epoch body succeeds whenever the training loader, and the
validation loader when given, are nonempty. -/
theorem epochBody_ok (trainStep : Weights → Batch α → Weights)
    (lossOf : Weights → Batch α → ℚ) (train : Loader α)
    (valid : Option (Loader α)) (c : ImageClassifier) (htrain : train ≠ [])
    (hvalid : ∀ v, valid = some v → v ≠ []) :
    ∃ tl vl c2, epochBody trainStep lossOf train valid c = .ok ((tl, vl), c2) := by
  obtain ⟨q1, hq1⟩ := get_loss_isOk lossOf
    ((ImageClassifier.forward_backward trainStep c train).1).weights train htrain
  cases hv : valid with
  | none =>
      refine ⟨q1, none,
        { (ImageClassifier.forward_backward trainStep c train).1 with
            trainingMode := false }, ?_⟩
      simp [epochBody, hq1]
  | some v =>
      obtain ⟨q2, hq2⟩ := get_loss_isOk lossOf
        ((ImageClassifier.forward_backward trainStep c train).1).weights v
        (hvalid v hv)
      refine ⟨q1, some q2,
        { (ImageClassifier.forward_backward trainStep c train).1 with
            trainingMode := false }, ?_⟩
      simp [epochBody, hq1, hq2]

/-- Shape of the epoch trace produced by the loop of fit: at most k
records; exactly k when early stopping is off; with early stopping on,
every record but the last reports a negative stopper verdict and the loop
either ran all k epochs or its last record reports the positive verdict
that broke it; no validation losses appear without valid_data. -/
theorem fitLoop_trace_spec (es : σ → ℚ → Bool × σ)
    (trainStep : Weights → Batch α → Weights) (lossOf : Weights → Batch α → ℚ)
    (train : Loader α) (valid : Option (Loader α)) (htrain : train ≠ [])
    (hvalid : ∀ v, valid = some v → v ≠ []) :
    ∀ (k : Nat) (c : ImageClassifier) (s : σ),
      (fitLoop es trainStep lossOf train valid k c s).1.length ≤ k ∧
      (c.early_stopping = false →
        (fitLoop es trainStep lossOf train valid k c s).1.length = k) ∧
      (c.early_stopping = true →
        (∀ r ∈ (fitLoop es trainStep lossOf train valid k c s).1.dropLast,
            r.stopFired = some false) ∧
        ((fitLoop es trainStep lossOf train valid k c s).1.length = k ∨
          ∃ r, (fitLoop es trainStep lossOf train valid k c s).1.getLast? =
              some r ∧ r.stopFired = some true)) ∧
      (valid = none →
        ∀ r ∈ (fitLoop es trainStep lossOf train valid k c s).1,
          r.val_loss = none) := by
  intro k
  induction k with
  | zero => intro c s; simp [fitLoop]
  | succ k ih =>
      intro c s
      obtain ⟨tl, vl, c2, hb⟩ :=
        epochBody_ok trainStep lossOf train valid c htrain hvalid
      obtain ⟨hes, -, -, -, hvnone⟩ :=
        epochBody_fields trainStep lossOf train valid c tl vl c2 hb
      cases hces : c.early_stopping with
      | false =>
          have hstep : fitLoop es trainStep lossOf train valid (k + 1) c s =
              (⟨tl, vl, none⟩ ::
                  (fitLoop es trainStep lossOf train valid k c2 s).1,
                (fitLoop es trainStep lossOf train valid k c2 s).2) := by
            simp [fitLoop, hb, hces]
          have ih2 := ih c2 s
          rw [hes, hces] at ih2
          refine ⟨?_, ?_, ?_, ?_⟩ <;> rw [hstep]
          · exact Nat.succ_le_succ ((ih2.1))
          · intro _
            simp [ih2.2.1 rfl]
          · exact fun hcontra => absurd hcontra (by simp)
          · intro hvn r hr
            rcases List.mem_cons.mp hr with hr | hr
            · subst hr; exact hvnone hvn
            · exact ih2.2.2.2 hvn r hr
      | true =>
          cases hverd : (es s (vl.getD tl)).1 with
          | true =>
              have hstep : fitLoop es trainStep lossOf train valid (k + 1) c s =
                  ([⟨tl, vl, some true⟩], .ok c2) := by
                simp [fitLoop, hb, hces, hverd]
              refine ⟨?_, ?_, ?_, ?_⟩ <;> rw [hstep]
              · exact Nat.succ_le_succ (Nat.zero_le k)
              · exact fun hcontra => absurd hcontra (by simp)
              · exact fun _ => ⟨by simp, Or.inr ⟨⟨tl, vl, some true⟩, rfl, rfl⟩⟩
              · intro hvn r hr
                rcases List.mem_singleton.mp hr with rfl
                exact hvnone hvn
          | false =>
              have hstep : fitLoop es trainStep lossOf train valid (k + 1) c s =
                  (⟨tl, vl, some false⟩ ::
                      (fitLoop es trainStep lossOf train valid k c2
                        (es s (vl.getD tl)).2).1,
                    (fitLoop es trainStep lossOf train valid k c2
                      (es s (vl.getD tl)).2).2) := by
                simp [fitLoop, hb, hces, hverd]
              have ih2 := ih c2 (es s (vl.getD tl)).2
              rw [hes, hces] at ih2
              have ihes := ih2.2.2.1 rfl
              refine ⟨?_, ?_, ?_, ?_⟩ <;> rw [hstep]
              · exact Nat.succ_le_succ ih2.1
              · exact fun hcontra => absurd hcontra (by simp)
              · intro _
                constructor
                · intro r hr
                  cases htail : (fitLoop es trainStep lossOf train valid k c2
                      (es s (vl.getD tl)).2).1 with
                  | nil => rw [htail] at hr; simp at hr
                  | cons y ys =>
                      rw [htail] at hr
                      rw [List.dropLast_cons₂] at hr
                      rcases List.mem_cons.mp hr with hr | hr
                      · subst hr; rfl
                      · exact ihes.1 r (htail ▸ hr)
                · rcases ihes.2 with hlen | ⟨r, hr, hf⟩
                  · exact Or.inl (by simp [hlen])
                  · refine Or.inr ⟨r, ?_, hf⟩
                    cases htail : (fitLoop es trainStep lossOf train valid k c2
                        (es s (vl.getD tl)).2).1 with
                    | nil => rw [htail] at hr; simp at hr
                    | cons y ys =>
                        rw [htail] at hr
                        show (⟨tl, vl, some false⟩ :: y :: ys :
                          List EpochRec).getLast? = some r
                        rw [List.getLast?_cons_cons]
                        exact hr
              · intro hvn r hr
                rcases List.mem_cons.mp hr with hr | hr
                · subst hr; exact hvnone hvn
                · exact ih2.2.2.2 hvn r hr

/-- C2: fit runs at most max_epochs epochs; with early stopping off it
runs exactly max_epochs; with early stopping on, every epoch but the last
got a negative verdict from the stopper, and the run either reached
max_epochs or its last epoch got the positive verdict that broke the
loop, whichever came first; when no valid_data is given, no epoch records
a validation loss and the stopper monitors the train loss. -/
theorem fit_epoch_control (es : σ → ℚ → Bool × σ) (es0 : σ)
    (trainStep : Weights → Batch α → Weights) (lossOf : Weights → Batch α → ℚ)
    (c : ImageClassifier) (train : Loader α) (valid : Option (Loader α))
    (htrain : train ≠ []) (hvalid : ∀ v, valid = some v → v ≠ []) :
    (ImageClassifier.fit es es0 trainStep lossOf c train valid).1.length ≤
      c.max_epochs ∧
    (c.early_stopping = false →
      (ImageClassifier.fit es es0 trainStep lossOf c train valid).1.length =
        c.max_epochs) ∧
    (c.early_stopping = true →
      (∀ r ∈ (ImageClassifier.fit es es0 trainStep lossOf c train
          valid).1.dropLast, r.stopFired = some false) ∧
      ((ImageClassifier.fit es es0 trainStep lossOf c train valid).1.length =
          c.max_epochs ∨
        ∃ r, (ImageClassifier.fit es es0 trainStep lossOf c train
            valid).1.getLast? = some r ∧ r.stopFired = some true)) ∧
    (valid = none →
      ∀ r ∈ (ImageClassifier.fit es es0 trainStep lossOf c train valid).1,
        r.val_loss = none) := by
  unfold ImageClassifier.fit
  by_cases hme : c.max_epochs = 0
  · simp [hme]
  · simp only [hme, if_false]
    have h := fitLoop_trace_spec es trainStep lossOf train valid htrain hvalid
      c.max_epochs { c with trainingMode := true } es0
    exact h

/-- Witness for C2 on a concrete early-stopping run whose stopper fires
at its second consultation: the trace has two epochs out of five. -/
theorem fit_epoch_control_witness :
    ([[(1, 0)]] : Loader Nat) ≠ [] ∧
    (demoTrace.length ≤ demoClassifierES.max_epochs ∧
     (demoClassifierES.early_stopping = false →
       demoTrace.length = demoClassifierES.max_epochs) ∧
     (demoClassifierES.early_stopping = true →
       (∀ r ∈ demoTrace.dropLast, r.stopFired = some false) ∧
       (demoTrace.length = demoClassifierES.max_epochs ∨
         ∃ r, demoTrace.getLast? = some r ∧ r.stopFired = some true)) ∧
     ((none : Option (Loader Nat)) = none →
       ∀ r ∈ demoTrace, r.val_loss = none)) :=
  ⟨by simp,
   fit_epoch_control (fun (s : Nat) _ => (Nat.ble 1 s, s + 1)) 0
     (fun w _ => w) (fun w _ => w.headD 0) demoClassifierES
     ([[(1, 0)]] : Loader Nat) none (by simp) (fun v h => nomatch h)⟩

/-- The loop of fit reassigns neither self.model nor self.optimizer, so
the object identities survive every completed run. -/
theorem fitLoop_preserves_ids (es : σ → ℚ → Bool × σ)
    (trainStep : Weights → Batch α → Weights) (lossOf : Weights → Batch α → ℚ)
    (train : Loader α) (valid : Option (Loader α)) :
    ∀ (k : Nat) (c : ImageClassifier) (s : σ) (c2 : ImageClassifier),
      (fitLoop es trainStep lossOf train valid k c s).2 = .ok c2 →
      c2.modelId = c.modelId ∧ c2.optBoundId = c.optBoundId := by
  intro k
  induction k with
  | zero =>
      intro c s c2 h
      simp [fitLoop] at h
      subst h; exact ⟨rfl, rfl⟩
  | succ k ih =>
      intro c s c2 h
      cases hb : epochBody trainStep lossOf train valid c with
      | error e => rw [show (fitLoop es trainStep lossOf train valid (k + 1) c s) =
            ([], .error e) by simp [fitLoop, hb]] at h; simp at h
      | ok res =>
          obtain ⟨⟨tl, vl⟩, cmid⟩ := res
          obtain ⟨-, -, hmid1, hmid2, -⟩ :=
            epochBody_fields trainStep lossOf train valid c tl vl cmid hb
          cases hces : c.early_stopping with
          | false =>
              rw [show (fitLoop es trainStep lossOf train valid (k + 1) c s).2 =
                  (fitLoop es trainStep lossOf train valid k cmid s).2 by
                simp [fitLoop, hb, hces]] at h
              obtain ⟨g1, g2⟩ := ih cmid s c2 h
              exact ⟨g1.trans hmid1, g2.trans hmid2⟩
          | true =>
              cases hverd : (es s (vl.getD tl)).1 with
              | true =>
                  rw [show (fitLoop es trainStep lossOf train valid
                      (k + 1) c s).2 = .ok cmid by
                    simp [fitLoop, hb, hces, hverd]] at h
                  cases h
                  exact ⟨hmid1, hmid2⟩
              | false =>
                  rw [show (fitLoop es trainStep lossOf train valid
                      (k + 1) c s).2 =
                      (fitLoop es trainStep lossOf train valid k cmid
                        (es s (vl.getD tl)).2).2 by
                    simp [fitLoop, hb, hces, hverd]] at h
                  obtain ⟨g1, g2⟩ := ih cmid (es s (vl.getD tl)).2 c2 h
                  exact ⟨g1.trans hmid1, g2.trans hmid2⟩

/-- A successful constructor call binds both the model and the optimizer
to the freshly built model object. -/
theorem init_ids (initW : Weights) (fid nc : Nat) (lr : ℚ) (opt : String)
    (me : Nat) (esf : Bool) (pat : Nat) (dlt : ℚ) (sch : Option String)
    (kw : Option Kwargs) (c : ImageClassifier)
    (h : ImageClassifier.init initW fid nc lr opt me esf pat dlt sch kw = .ok c) :
    c.modelId = fid ∧ c.optBoundId = fid := by
  unfold ImageClassifier.init get_optimizer get_lr_scheduler at h
  by_cases hopt : opt ∈ supported_optimizers
  · cases sch with
    | none =>
        simp [hopt] at h
        subst h; exact ⟨rfl, rfl⟩
    | some s =>
        by_cases hs : s ∈ supported_schedulers
        · cases kw with
          | none => simp [hopt, hs] at h
          | some k =>
              simp [hopt, hs] at h
              subst h; exact ⟨rfl, rfl⟩
        · simp [hopt, hs] at h
  · simp [hopt] at h

/-- A successful load returns a trainer whose model is the freshly loaded
object while its optimizer is still bound to the constructor-built model
that was discarded. -/
theorem load_ids (ctorW : Weights) (fid : Nat) (d : Dir) (c : ImageClassifier)
    (h : ImageClassifier.load ctorW fid d = .ok c) :
    c.modelId = fid ∧ c.optBoundId = fid + 1 := by
  unfold ImageClassifier.load at h
  split at h
  · split at h
    · split at h
      · simp at h
      · rename_i x2 p hp x1 st hst x0 trainer heq
        simp only [Except.ok.injEq] at h
        subst h
        exact ⟨rfl, (init_ids ctorW (fid + 1) p.num_classes p.lr p.optimizer
          p.max_epochs p.early_stopping p.early_stopping_patience
          p.early_stopping_delta p.lr_scheduler p.lr_scheduler_kwargs
          trainer heq).2⟩
    · simp at h
  · simp at h

/-- C10: the invariant that the optimizer is bound to the parameters of
the own model holds after a successful constructor call and is preserved
by fit, predict and evaluate (save mutates no classifier state in the
embedding, so it preserves it trivially), but every successful load
returns a trainer whose optimizer is bound to the discarded
constructor-built model rather than to trainer.model. -/
theorem optimizer_binding_invariant (γ τ : Type) :
    (∀ (initW : Weights) (fid nc : Nat) (lr : ℚ) (opt : String) (me : Nat)
        (esf : Bool) (pat : Nat) (dlt : ℚ) (sch : Option String)
        (kw : Option Kwargs) (c : ImageClassifier),
      ImageClassifier.init initW fid nc lr opt me esf pat dlt sch kw = .ok c →
      c.optBoundId = c.modelId) ∧
    (∀ (es : τ → ℚ → Bool × τ) (es0 : τ) (trainStep : Weights → Batch γ → Weights)
        (lossOf : Weights → Batch γ → ℚ) (c : ImageClassifier)
        (train : Loader γ) (valid : Option (Loader γ)) (c2 : ImageClassifier),
      (ImageClassifier.fit es es0 trainStep lossOf c train valid).2 = .ok c2 →
      c2.modelId = c.modelId ∧ c2.optBoundId = c.optBoundId) ∧
    (∀ (modelOut : Weights → γ → List ℚ) (softmaxFn : List ℚ → List ℚ)
        (c : ImageClassifier) (data : Loader γ),
      (ImageClassifier.predict modelOut softmaxFn c data).2.modelId = c.modelId ∧
      (ImageClassifier.predict modelOut softmaxFn c data).2.optBoundId =
        c.optBoundId) ∧
    (∀ (lossOf : Weights → Batch γ → ℚ) (c : ImageClassifier)
        (data : Loader γ),
      (ImageClassifier.evaluate lossOf c data).2.modelId = c.modelId ∧
      (ImageClassifier.evaluate lossOf c data).2.optBoundId = c.optBoundId) ∧
    (∀ (ctorW : Weights) (fid : Nat) (d : Dir) (c : ImageClassifier),
      ImageClassifier.load ctorW fid d = .ok c →
      c.optBoundId ≠ c.modelId) := by
  refine ⟨?_, ?_, fun _ _ _ _ => ⟨rfl, rfl⟩, fun _ _ _ => ⟨rfl, rfl⟩, ?_⟩
  · intro initW fid nc lr opt me esf pat dlt sch kw c h
    obtain ⟨h1, h2⟩ := init_ids initW fid nc lr opt me esf pat dlt sch kw c h
    rw [h1, h2]
  · intro es es0 trainStep lossOf c train valid c2 h
    unfold ImageClassifier.fit at h
    by_cases hme : c.max_epochs = 0
    · rw [if_pos hme] at h; simp at h
    · rw [if_neg hme] at h
      exact fitLoop_preserves_ids es trainStep lossOf train valid c.max_epochs
        { c with trainingMode := true } es0 c2 h
  · intro ctorW fid d c h
    obtain ⟨h1, h2⟩ := load_ids ctorW fid d c h
    rw [h1, h2]
    exact Nat.succ_ne_self fid

/-- Witness for C10: concrete constructor, fit and load runs; the loaded
trainer has optimizer binding 6 but model identity 5. -/
theorem optimizer_binding_invariant_witness :
    demoInit.optBoundId = demoInit.modelId ∧
    (demoFitClassifier.modelId = demoClassifier.modelId ∧
     demoFitClassifier.optBoundId = demoClassifier.optBoundId) ∧
    demoLoaded.optBoundId ≠ demoLoaded.modelId :=
  ⟨(optimizer_binding_invariant Nat Unit).1 [1] 0 2 1 "adam" 1 false 1 1
      none none demoInit rfl,
   (optimizer_binding_invariant Nat Unit).2.1 (fun _ _ => (false, ())) ()
      (fun w _ => w) (fun w _ => w.headD 0) demoClassifier
      ([[(1, 0)]] : Loader Nat) none demoFitClassifier rfl,
   (optimizer_binding_invariant Nat Unit).2.2.2.2 [0] 5 demoClassifier.save
      demoLoaded rfl⟩

end Theorems

end PredictorModel
